import Mathlib

set_option maxHeartbeats 1000000

/-
Shallow embedding of src/ml_model.py (class MarketPredictor) and the call
sites in src/app.py that reach it.

Modelling conventions:
  * Numeric record fields are rationals (the Python floats are used only for
    elementary arithmetic here).
  * Timestamps and forecast dates are day numbers (Nat).  The ISO-8601
    strings the code stores compare lexicographically exactly as their
    instants do, so sorting by the Nat stands for sorting by the string.
  * The persisted JSON file and the in-memory object are combined into one
    PredictorState; `store` is the file content as load_data returns it.
  * The numeric sklearn pipeline (StandardScaler.fit_transform, the seeded
    train_test_split, LinearRegression.fit) computes with square roots and
    floating point and is abstracted as a FitFun oracle: given the feature
    matrix and target vector it returns fitted scaler and model parameters,
    or an exception.  Everything downstream of the fitted parameters
    (transform, predict, the metric formulas) is embedded concretely.
  * A Python exception crossing a function boundary is an `Except.error`.
-/

namespace MarketML

/-- One stored cost/profit observation: a row of market_data.json as
written by MarketPredictor.add_user_data. -/
structure Record where
  user_id : Nat
  market_price : ℚ
  harvest_amount : ℚ
  total_cost : ℚ
  total_revenue : ℚ
  net_profit : ℚ
  timestamp : Nat
deriving Repr, DecidableEq

/-- StandardScaler parameters after a fit: per-column mean and scale. -/
structure Scaler where
  mean : List ℚ
  scale : List ℚ
deriving Repr, DecidableEq

/-- Fitted LinearRegression parameters: intercept and coefficients. -/
structure LinModel where
  intercept : ℚ
  coef : List ℚ
deriving Repr, DecidableEq

/-- The state of a MarketPredictor instance together with the persisted
store (market_data.json). -/
structure PredictorState where
  store : List Record
  price_model : LinModel
  profit_model : LinModel
  price_scaler : Scaler
  profit_scaler : Scaler
  price_model_trained : Bool
  profit_model_trained : Bool
deriving Repr, DecidableEq

/-- The state right after MarketPredictor.__init__ over a given persisted
file content: both trained flags are False and the models and scalers are
unfitted (their parameters are irrelevant until a fit succeeds). -/
def initState (store : List Record) : PredictorState :=
  { store := store
    price_model := { intercept := 0, coef := [] }
    profit_model := { intercept := 0, coef := [] }
    price_scaler := { mean := [], scale := [] }
    profit_scaler := { mean := [], scale := [] }
    price_model_trained := false
    profit_model_trained := false }

/-- Features for price prediction: harvest_amount, total_cost
(ml_model.py line 89). -/
def priceFeatures (data : List Record) : List (List ℚ) :=
  data.map (fun item => [item.harvest_amount, item.total_cost])

/-- Targets for price prediction: market_price (line 90). -/
def priceTargets (data : List Record) : List ℚ :=
  data.map (fun item => item.market_price)

/-- Features for profit prediction: market_price, harvest_amount,
total_cost (line 93). -/
def profitFeatures (data : List Record) : List (List ℚ) :=
  data.map (fun item => [item.market_price, item.harvest_amount, item.total_cost])

/-- Targets for profit prediction: net_profit (line 94). -/
def profitTargets (data : List Record) : List ℚ :=
  data.map (fun item => item.net_profit)

/-- Result of the sklearn fitting pipeline for one model. -/
structure FitResult where
  scaler : Scaler
  model : LinModel
deriving Repr, DecidableEq

/-- Abstraction of the numeric fitting pipeline of _train_models
(StandardScaler.fit_transform, train_test_split with random_state 42,
LinearRegression.fit, and the diagnostic metric computation): it yields
fitted scaler and model parameters or raises.  The Lean development
quantifies over this oracle, so every theorem below holds for whatever
the numeric library computes. -/
def FitFun : Type := List (List ℚ) → List ℚ → Except String FitResult

/-- MarketPredictor._train_models (lines 69-147).  The oracle `fit` stands
for the numeric pipeline of each of the two training blocks; an
`Except.error` from it is an exception inside the `try`, sending control
to the handler at line 144 which sets both trained flags to False.  The
function reads the store and never writes it (there is no save_data call
in _train_models). -/
def train_models (fit : FitFun) (s : PredictorState) : PredictorState :=
  let data := s.store
  if data.length < 3 then
    { s with price_model_trained := false, profit_model_trained := false }
  else
    -- try block, lines 78-142; the inner `len >= 3` guards (lines 103, 124)
    -- are modelled faithfully even though they are implied by the outer check
    let step1 : Except String PredictorState :=
      if 3 ≤ (priceFeatures data).length then
        (fit (priceFeatures data) (priceTargets data)).map (fun pr =>
          { s with price_scaler := pr.scaler, price_model := pr.model,
                   price_model_trained := true })
      else .ok s
    match step1 with
    | .error _ =>
        -- except handler: both flags cleared (lines 144-147)
        { s with price_model_trained := false, profit_model_trained := false }
    | .ok s1 =>
        let step2 : Except String PredictorState :=
          if 3 ≤ (profitFeatures data).length then
            (fit (profitFeatures data) (profitTargets data)).map (fun pf =>
              ({ s1 with profit_scaler := pf.scaler, profit_model := pf.model,
                         profit_model_trained := true } : PredictorState))
          else .ok s1
        match step2 with
        | .error _ =>
            -- except handler fires after the price block already ran:
            -- price parameters stay updated, both flags cleared
            { s1 with price_model_trained := false, profit_model_trained := false }
        | .ok s2 => s2

/-- A Python exception escaping a MarketPredictor method. -/
inductive PyErr where
  | saveFailure : PyErr
deriving Repr, DecidableEq

/-- MarketPredictor.add_user_data (lines 37-57).  `saveOk` is whether the
save_data write of market_data.json succeeds; save_data (lines 32-35) has
no exception handler, so a failing write propagates to the caller before
the retrain happens.  `ts` is the timestamp datetime.now() generates.
On success the new state and the value returned to the caller (the
appended list) are produced. -/
def add_user_data (fit : FitFun) (saveOk : Bool) (s : PredictorState)
    (user_id : Nat) (market_price harvest_amount total_cost total_revenue net_profit : ℚ)
    (ts : Nat) : Except PyErr (PredictorState × List Record) :=
  let data := s.store
  let new_row : Record :=
    { user_id := user_id, market_price := market_price,
      harvest_amount := harvest_amount, total_cost := total_cost,
      total_revenue := total_revenue, net_profit := net_profit, timestamp := ts }
  let data2 := data ++ [new_row]
  if saveOk then
    let s2 := train_models fit { s with store := data2 }
    .ok (s2, data2)
  else
    .error .saveFailure

/-- MarketPredictor.clear_user_data (lines 59-67): filter out the user's
records, persist, retrain.  As in add_user_data a failing save_data write
propagates. -/
def clear_user_data (fit : FitFun) (saveOk : Bool) (s : PredictorState)
    (user_id : Nat) : Except PyErr PredictorState :=
  let data := s.store.filter (fun item => item.user_id != user_id)
  if saveOk then
    .ok (train_models fit { s with store := data })
  else
    .error .saveFailure

/-- Arithmetic mean, np.mean over a list. -/
def mean (xs : List ℚ) : ℚ := xs.sum / xs.length

/-- Dot product of coefficient and feature vectors. -/
def dot (xs ys : List ℚ) : ℚ := (List.zipWith (fun a b => a * b) xs ys).sum

/-- StandardScaler.transform on one sample: per column subtract the mean
and divide by the scale. -/
def Scaler.transform (sc : Scaler) (x : List ℚ) : List ℚ :=
  (x.zip (sc.mean.zip sc.scale)).map (fun p => (p.1 - p.2.1) / p.2.2)

/-- LinearRegression.predict on one (already scaled) sample. -/
def LinModel.predict (m : LinModel) (x : List ℚ) : ℚ := m.intercept + dot m.coef x

/-- Python round(x, 2): the value with two decimal places nearest to x
(the tie-break differs from float banker's rounding only on exact
half-cents, which no claim depends on). -/
def round2 (q : ℚ) : ℚ := (⌊q * 100 + 1 / 2⌋ : ℤ) / 100

/-- Python round(x, 3). -/
def round3 (q : ℚ) : ℚ := (⌊q * 1000 + 1 / 2⌋ : ℤ) / 1000

/-- The last min(5, len) records of the store in insertion order:
data[-min(5, len(data)):] at lines 160 and 203. -/
def recentData (data : List Record) : List Record :=
  data.drop (data.length - min 5 data.length)

/-- One entry of a price forecast. -/
structure PricePrediction where
  date : Nat
  predicted_price : ℚ
deriving Repr, DecidableEq

/-- One entry of a profit forecast. -/
structure ProfitPrediction where
  date : Nat
  predicted_profit : ℚ
deriving Repr, DecidableEq

/-- MarketPredictor.predict_future_prices (lines 149-190).  `now` is
datetime.now() in days.  The body of the `try` is elementary arithmetic
over well-formed records and cannot raise, so it is embedded as the pure
success path. -/
def predict_future_prices (s : PredictorState) (now : Nat) (periods : Nat) :
    Option (List PricePrediction) × Option String :=
  if s.price_model_trained = false then
    (none, some "Model not trained. Need at least 3 data points.")
  else
    let data := s.store
    if data.length = 0 then
      (none, some "No data available for prediction.")
    else
      let recent_data := recentData data
      let future_predictions := (List.range periods).map (fun k =>
        let i := k + 1
        let future_date := now + i * 30
        let avg_harvest := mean (recent_data.map (fun item => item.harvest_amount))
        let avg_cost := mean (recent_data.map (fun item => item.total_cost))
        let features := [avg_harvest, avg_cost]
        let features_scaled := s.price_scaler.transform features
        let predicted_price := s.price_model.predict features_scaled
        let clamped := max 0 predicted_price
        ({ date := future_date, predicted_price := round2 clamped } : PricePrediction))
      (some future_predictions, none)

/-- MarketPredictor.predict_future_profits (lines 192-231): same loop with
the three profit features and no non-negativity clamp. -/
def predict_future_profits (s : PredictorState) (now : Nat) (periods : Nat) :
    Option (List ProfitPrediction) × Option String :=
  if s.profit_model_trained = false then
    (none, some "Model not trained. Need at least 3 data points.")
  else
    let data := s.store
    if data.length = 0 then
      (none, some "No data available for prediction.")
    else
      let recent_data := recentData data
      let future_predictions := (List.range periods).map (fun k =>
        let i := k + 1
        let future_date := now + i * 30
        let avg_price := mean (recent_data.map (fun item => item.market_price))
        let avg_harvest := mean (recent_data.map (fun item => item.harvest_amount))
        let avg_cost := mean (recent_data.map (fun item => item.total_cost))
        let features := [avg_price, avg_harvest, avg_cost]
        let features_scaled := s.profit_scaler.transform features
        let predicted_profit := s.profit_model.predict features_scaled
        ({ date := future_date, predicted_profit := round2 predicted_profit } : ProfitPrediction))
      (some future_predictions, none)

/-- One entry of get_historical_data's chart output. -/
structure HistEntry where
  month : Nat
  market_price : ℚ
  net_profit : ℚ
deriving Repr, DecidableEq

/-- MarketPredictor.get_historical_data (lines 233-257): optional user
filter, stable sort by timestamp descending (Python sorted with
reverse=True keeps insertion order among equal keys), take `limit`,
label "Month 1".."Month N" in that order. -/
def get_historical_data (s : PredictorState) (user_id : Option Nat) (limit : Nat) :
    List HistEntry :=
  let data : List Record := match user_id with
    | some uid => s.store.filter (fun item => item.user_id == uid)
    | none => s.store
  if data.length = 0 then []
  else
    let sorted_data := data.mergeSort (fun a b => b.timestamp ≤ a.timestamp)
    let recent_data := sorted_data.take limit
    recent_data.enum.map (fun p =>
      ({ month := p.1 + 1, market_price := p.2.market_price,
         net_profit := p.2.net_profit } : HistEntry))

/-- Metric mean_squared_error over paired targets and predictions. -/
def mseMetric (y yhat : List ℚ) : ℚ :=
  mean ((y.zip yhat).map (fun p => (p.1 - p.2) ^ 2))

/-- Metric r2_score.  With a constant target ss_tot is 0; sklearn then
returns a degenerate value under a warning, and the rational convention
x / 0 = 0 stands in for that corner, which no claim touches. -/
def r2Metric (y yhat : List ℚ) : ℚ :=
  let ybar := mean y
  let ss_res := ((y.zip yhat).map (fun p => (p.1 - p.2) ^ 2)).sum
  let ss_tot := (y.map (fun v => (v - ybar) ^ 2)).sum
  1 - ss_res / ss_tot

/-- In-sample performance numbers of one model in get_model_stats. -/
structure ModelPerf where
  mse : ℚ
  r2_score : ℚ
deriving Repr, DecidableEq

/-- The statistics summary get_model_stats returns; `message` is present
only in the two fallback shapes, `price_perf`, `profit_perf` and
`date_range` only in the full shape. -/
structure Stats where
  total_data_points : Nat
  model_trained : Bool
  message : Option String
  avg_market_price : ℚ
  avg_profit : ℚ
  total_users : Nat
  model_type : String
  training_status : String
  price_perf : Option ModelPerf
  profit_perf : Option ModelPerf
  date_range : Option (Nat × Nat)
deriving Repr, DecidableEq

/-- MarketPredictor.get_model_stats (lines 259-359): optional user filter,
a documented no-data shape on an empty filtered set, otherwise counts,
averages, distinct-user count, in-sample MSE and R2 over the whole
filtered set for each trained model, and the min and max timestamp.  The
try bodies are elementary arithmetic over well-formed records and cannot
raise, so the error shapes of the handlers are unreachable here. -/
def get_model_stats (s : PredictorState) (user_id : Option Nat) : Stats :=
  let data : List Record := match user_id with
    | some uid => s.store.filter (fun item => item.user_id == uid)
    | none => s.store
  if data.length = 0 then
    { total_data_points := 0
      model_trained := false
      message := some "No data available"
      avg_market_price := 0
      avg_profit := 0
      total_users := if user_id.isSome then 1 else 0
      model_type := "LinearRegression"
      training_status := "Not trained"
      price_perf := none
      profit_perf := none
      date_range := none }
  else
    let prices := data.map (fun item => item.market_price)
    let profits := data.map (fun item => item.net_profit)
    let user_ids := (data.map (fun item => item.user_id)).dedup
    let price_perf : Option ModelPerf :=
      if s.price_model_trained && 3 ≤ data.length then
        let yhat := (priceFeatures data).map (fun x =>
          s.price_model.predict (s.price_scaler.transform x))
        some { mse := round2 (mseMetric prices yhat),
               r2_score := round3 (r2Metric prices yhat) }
      else none
    let profit_perf : Option ModelPerf :=
      if s.profit_model_trained && 3 ≤ data.length then
        let yhat := (profitFeatures data).map (fun x =>
          s.profit_model.predict (s.profit_scaler.transform x))
        some { mse := round2 (mseMetric profits yhat),
               r2_score := round3 (r2Metric profits yhat) }
      else none
    { total_data_points := data.length
      model_trained := s.price_model_trained && s.profit_model_trained
      message := none
      avg_market_price := round2 (prices.sum / prices.length)
      avg_profit := round2 (profits.sum / profits.length)
      total_users := user_ids.length
      model_type := "LinearRegression"
      training_status :=
        if s.price_model_trained && s.profit_model_trained then "Trained"
        else "Partially trained"
      price_perf := price_perf
      profit_perf := profit_perf
      date_range := some ((data.map (fun item => item.timestamp)).foldr min
                            ((data.map (fun item => item.timestamp)).headD 0),
                          (data.map (fun item => item.timestamp)).foldr max 0) }

/-- The price forecast the analytics route computes for the logged-in
user (src/app.py line 357): the predictor call passes periods 3 and no
user identity at all. -/
def user_price_forecast (current_user : Nat) (s : PredictorState) (now : Nat) :
    Option (List PricePrediction) × Option String :=
  predict_future_prices s now 3

/-- The profit forecast the analytics route computes for the logged-in
user (src/app.py line 358): again no user identity is passed. -/
def user_profit_forecast (current_user : Nat) (s : PredictorState) (now : Nat) :
    Option (List ProfitPrediction) × Option String :=
  predict_future_profits s now 3

/-- An exception is raised during model fitting inside _train_models: one
of the two pipeline invocations fails.  (If the price pipeline fails the
profit one is never reached; the disjunction covers both orders.) -/
def fitRaises (fit : FitFun) (data : List Record) : Prop :=
  (fit (priceFeatures data) (priceTargets data)).isOk = false ∨
  (fit (profitFeatures data) (profitTargets data)).isOk = false

/-- The one per-period price every entry of a price forecast carries: the
model applied to the scaled mean harvest_amount and mean total_cost of
the last up-to-5 records in insertion order, clamped and rounded. -/
def flatPrice (s : PredictorState) : ℚ :=
  let recent := recentData s.store
  round2 (max 0 (s.price_model.predict (s.price_scaler.transform
    [mean (recent.map (fun r => r.harvest_amount)),
     mean (recent.map (fun r => r.total_cost))])))

/-- A fit pipeline that always succeeds, with fixed parameters. -/
def okFit : FitFun := fun _ _ =>
  .ok { scaler := { mean := [0, 0, 0], scale := [1, 1, 1] },
        model := { intercept := 1, coef := [2, 1, 1] } }

/-- A fit pipeline that always raises. -/
def failFit : FitFun := fun _ _ => .error "numerical error"

/-- First record of the scenario in the spec: harvest 10, cost 100,
price 5, submitted by user 1. -/
def rec1 : Record :=
  { user_id := 1, market_price := 5, harvest_amount := 10, total_cost := 100,
    total_revenue := 150, net_profit := 50, timestamp := 1 }

/-- Second scenario record: harvest 20, cost 200, price 6, user 1. -/
def rec2 : Record :=
  { user_id := 1, market_price := 6, harvest_amount := 20, total_cost := 200,
    total_revenue := 250, net_profit := 50, timestamp := 2 }

/-- Third scenario record: harvest 30, cost 300, price 7, user 1. -/
def rec3 : Record :=
  { user_id := 1, market_price := 7, harvest_amount := 30, total_cost := 300,
    total_revenue := 350, net_profit := 50, timestamp := 3 }

/-- A record of a second user. -/
def rec4 : Record :=
  { user_id := 2, market_price := 8, harvest_amount := 40, total_cost := 400,
    total_revenue := 500, net_profit := 100, timestamp := 4 }

/-- The spec scenario store: three records of user 1. -/
def storeEx : List Record := [rec1, rec2, rec3]

/-- A trained state: the scenario store retrained with a succeeding
pipeline. -/
def trainedEx : PredictorState := train_models okFit (initState storeEx)

/-- A trained state over a store holding records of users 1 and 2. -/
def mixedEx : PredictorState := train_models okFit (initState [rec1, rec2, rec4])

/-- An untrained state holding only two records (below the minimum
sample size), both of user 1. -/
def twoRecState : PredictorState := initState [rec1, rec2]

/-- The state after user 1 submits one more observation on top of
twoRecState, the save succeeding and the pipeline fitting. -/
def afterAdd : PredictorState :=
  match add_user_data okFit true twoRecState 1 7 30 300 400 100 30 with
  | .ok p => p.1
  | .error _ => twoRecState

/-- The state after clearing user 1 from mixedEx (save succeeding). -/
def clearedEx : PredictorState :=
  match clear_user_data okFit true mixedEx 1 with
  | .ok s2 => s2
  | .error _ => mixedEx

/-- A trained state whose fitted price line extrapolates below zero on
the scenario store's mean features. -/
def negEx : PredictorState :=
  { store := storeEx
    price_model := { intercept := -1000, coef := [1, 1] }
    profit_model := { intercept := 0, coef := [1, 1, 1] }
    price_scaler := { mean := [0, 0], scale := [1, 1] }
    profit_scaler := { mean := [0, 0, 0], scale := [1, 1, 1] }
    price_model_trained := true
    profit_model_trained := true }

/-! Helper lemmas shared by the claim theorems. -/

/-- Unfolded description of _train_models: the inner sample-size guards
(lines 103 and 124) are always true once the outer minimum-size check
passed, so the outcome is decided by the store size and the two pipeline
invocations. -/
theorem train_models_cases (fit : FitFun) (s : PredictorState) :
    train_models fit s =
      if s.store.length < 3 then
        { s with price_model_trained := false, profit_model_trained := false }
      else
        match fit (priceFeatures s.store) (priceTargets s.store) with
        | .error _ =>
            { s with price_model_trained := false, profit_model_trained := false }
        | .ok pr =>
            match fit (profitFeatures s.store) (profitTargets s.store) with
            | .error _ =>
                { s with price_scaler := pr.scaler, price_model := pr.model,
                         price_model_trained := false, profit_model_trained := false }
            | .ok pf =>
                { s with price_scaler := pr.scaler, price_model := pr.model,
                         price_model_trained := true,
                         profit_scaler := pf.scaler, profit_model := pf.model,
                         profit_model_trained := true } := by
  unfold train_models
  by_cases h3 : s.store.length < 3
  · simp [h3]
  · have hp : 3 ≤ (priceFeatures s.store).length := by
      simpa [priceFeatures] using Nat.le_of_not_lt h3
    have hq : 3 ≤ (profitFeatures s.store).length := by
      simpa [profitFeatures] using Nat.le_of_not_lt h3
    simp only [if_neg h3, if_pos hp, if_pos hq]
    cases hf1 : fit (priceFeatures s.store) (priceTargets s.store) with
    | error e => simp [Except.map]
    | ok pr =>
        cases hf2 : fit (profitFeatures s.store) (profitTargets s.store) with
        | error e => simp [Except.map]
        | ok pf => simp [Except.map]

/-- _train_models never writes the store. -/
theorem train_models_store (fit : FitFun) (s : PredictorState) :
    (train_models fit s).store = s.store := by
  rw [train_models_cases]
  by_cases h3 : s.store.length < 3
  · simp [h3]
  · simp only [if_neg h3]
    cases fit (priceFeatures s.store) (priceTargets s.store) with
    | error e => rfl
    | ok pr =>
        cases fit (profitFeatures s.store) (profitTargets s.store) with
        | error e => rfl
        | ok pf => rfl

/-- Python round(x, 2) of a non-negative rational is non-negative. -/
theorem round2_nonneg (q : ℚ) (h : 0 ≤ q) : 0 ≤ round2 q := by
  unfold round2
  have h1 : (0 : ℤ) ≤ ⌊q * 100 + 1 / 2⌋ := by
    rw [Int.le_floor]
    push_cast
    linarith
  positivity

/-! Claim theorems. -/

/-- C1, counterexample: the claim says no public operation ever raises,
including when persisting the store fails; but save_data has no exception
handler, so add_user_data with a failing write raises a save failure to
its caller at this concrete input. -/
theorem C1_counterexample :
    add_user_data okFit false (initState []) 1 5 10 100 150 50 0 =
      .error PyErr.saveFailure := by
  rfl

/-- C1, amended: add_user_data and clear_user_data succeed exactly when
the save_data write succeeds — a failing write is the one exception that
escapes the public boundary — and the prediction operations always
return either a result with a null error or a null result with an error
message.  (get_historical_data and get_model_stats are embedded as total
functions: their Python bodies catch internally or perform only
elementary arithmetic over well-formed records.) -/
theorem C1_amended (fit : FitFun) (saveOk : Bool) (s : PredictorState)
    (u : Nat) (mp ha tc tr np : ℚ) (ts now periods : Nat) :
    (add_user_data fit saveOk s u mp ha tc tr np ts).isOk = saveOk ∧
    (clear_user_data fit saveOk s u).isOk = saveOk ∧
    ((∃ l, predict_future_prices s now periods = (some l, none)) ∨
      (∃ m, predict_future_prices s now periods = (none, some m))) ∧
    ((∃ l, predict_future_profits s now periods = (some l, none)) ∨
      (∃ m, predict_future_profits s now periods = (none, some m))) := by
  refine ⟨?_, ?_, ?_, ?_⟩
  · cases saveOk <;> simp [add_user_data, Except.isOk, Except.toBool]
  · cases saveOk <;> simp [clear_user_data, Except.isOk, Except.toBool]
  · unfold predict_future_prices
    by_cases h1 : s.price_model_trained = false
    · simp [h1]
    · by_cases h2 : s.store.length = 0 <;> simp [h1, h2]
  · unfold predict_future_profits
    by_cases h1 : s.profit_model_trained = false
    · simp [h1]
    · by_cases h2 : s.store.length = 0 <;> simp [h1, h2]

/-- C2: whenever the most recent retrain saw a store of fewer than 3
records, both trained flags are False and both prediction calls return a
null result with the "not trained" message, whatever the periods
argument; the same holds in the initial state before any retrain. -/
theorem C2 (fit : FitFun) (s0 : PredictorState) (now periods : Nat)
    (hlen : s0.store.length < 3) :
    (train_models fit s0).price_model_trained = false ∧
    (train_models fit s0).profit_model_trained = false ∧
    predict_future_prices (train_models fit s0) now periods =
      (none, some "Model not trained. Need at least 3 data points.") ∧
    predict_future_profits (train_models fit s0) now periods =
      (none, some "Model not trained. Need at least 3 data points.") ∧
    predict_future_prices (initState s0.store) now periods =
      (none, some "Model not trained. Need at least 3 data points.") ∧
    predict_future_profits (initState s0.store) now periods =
      (none, some "Model not trained. Need at least 3 data points.") := by
  have ht : train_models fit s0 =
      { s0 with price_model_trained := false, profit_model_trained := false } := by
    rw [train_models_cases, if_pos hlen]
  refine ⟨?_, ?_, ?_, ?_, ?_, ?_⟩
  · rw [ht]
  · rw [ht]
  · rw [ht]; simp [predict_future_prices]
  · rw [ht]; simp [predict_future_profits]
  · simp [predict_future_prices, initState]
  · simp [predict_future_profits, initState]

/-- C2 witness: the empty store is below the minimum sample size, and
the price forecast in the retrained state is the "not trained" error. -/
theorem C2_witness :
    (initState ([] : List Record)).store.length < 3 ∧
    predict_future_prices (train_models okFit (initState [])) 0 5 =
      (none, some "Model not trained. Need at least 3 data points.") :=
  ⟨by decide, (C2 okFit (initState []) 0 5 (by decide)).2.2.1⟩

/-- C3: if any exception is raised during model fitting inside a
retrain, afterwards both models are marked untrained, and the store is
exactly what it was before — _train_models contains no save_data call,
so retraining never writes the store. -/
theorem C3 (fit : FitFun) (s : PredictorState) (h : fitRaises fit s.store) :
    (train_models fit s).price_model_trained = false ∧
    (train_models fit s).profit_model_trained = false ∧
    (train_models fit s).store = s.store := by
  refine ⟨?_, ?_, train_models_store fit s⟩ <;>
  · rw [train_models_cases]
    by_cases h3 : s.store.length < 3
    · simp [h3]
    · simp only [if_neg h3]
      cases hf1 : fit (priceFeatures s.store) (priceTargets s.store) with
      | error e => rfl
      | ok pr =>
          cases hf2 : fit (profitFeatures s.store) (profitTargets s.store) with
          | error e => rfl
          | ok pf =>
              rcases h with h | h
              · rw [hf1] at h; simp [Except.isOk, Except.toBool] at h
              · rw [hf2] at h; simp [Except.isOk, Except.toBool] at h

/-- C3 witness: a failing pipeline on the trained scenario state clears
both flags and leaves the three-record store untouched. -/
theorem C3_witness :
    fitRaises failFit trainedEx.store ∧
    ((train_models failFit trainedEx).price_model_trained = false ∧
     (train_models failFit trainedEx).profit_model_trained = false ∧
     (train_models failFit trainedEx).store = trainedEx.store) :=
  ⟨Or.inl (by decide), C3 failFit trainedEx (Or.inl (by decide))⟩

/-- C4: clear_user_data removes exactly the records of the given user —
afterwards the store is the original store filtered to the other users,
get_historical_data for the cleared user returns the empty sequence, and
the records of every other user are preserved in count, content and
order. -/
theorem C4 (fit : FitFun) (s : PredictorState) (u v : Nat) (limit : Nat)
    (s2 : PredictorState) (h : clear_user_data fit true s u = .ok s2)
    (hv : v ≠ u) :
    s2.store = s.store.filter (fun r => r.user_id != u) ∧
    get_historical_data s2 (some u) limit = [] ∧
    s2.store.filter (fun r => r.user_id == v) =
      s.store.filter (fun r => r.user_id == v) := by
  have hs2 : s2 = train_models fit
      { s with store := s.store.filter (fun r => r.user_id != u) } := by
    simp only [clear_user_data, if_pos] at h
    exact (Except.ok.injEq _ _).mp h.symm |>.symm ▸ rfl
  have hstore : s2.store = s.store.filter (fun r => r.user_id != u) := by
    rw [hs2, train_models_store]
  refine ⟨hstore, ?_, ?_⟩
  · have hempty : s2.store.filter (fun r => r.user_id == u) = [] := by
      rw [hstore, List.filter_filter]
      apply List.filter_eq_nil_iff.mpr
      intro r _
      by_cases hr : r.user_id = u <;> simp [hr]
    simp [get_historical_data, hempty]
  · rw [hstore, List.filter_filter]
    apply List.filter_congr
    intro r _
    by_cases hr : r.user_id = v
    · simp [hr, hv]
    · simp [hr]

/-- C4 witness: clearing user 1 from the two-user state empties user 1's
history and leaves user 2's single record exactly in place. -/
theorem C4_witness :
    clear_user_data okFit true mixedEx 1 = .ok clearedEx ∧ (2 : Nat) ≠ 1 ∧
    (clearedEx.store = mixedEx.store.filter (fun r => r.user_id != 1) ∧
     get_historical_data clearedEx (some 1) 3 = [] ∧
     clearedEx.store.filter (fun r => r.user_id == 2) =
       mixedEx.store.filter (fun r => r.user_id == 2)) :=
  ⟨by rfl, by decide, C4 okFit mixedEx 1 2 3 clearedEx (by rfl) (by decide)⟩

/-- C5: the transition function of each model's trained flag — after any
retrain the flag is True exactly when the store had at least 3 records
and both pipeline invocations succeeded, independent of the previous
flag.  Hence Untrained moves to Trained only on a successful fit with at
least 3 records, any fit exception or an undersized store forces
Untrained, no other transitions exist, and a failed retrain never leaves
a model Trained on stale parameters. -/
theorem C5 (fit : FitFun) (s : PredictorState) :
    ((train_models fit s).price_model_trained = true ↔
      (3 ≤ s.store.length ∧
       (fit (priceFeatures s.store) (priceTargets s.store)).isOk = true ∧
       (fit (profitFeatures s.store) (profitTargets s.store)).isOk = true)) ∧
    ((train_models fit s).profit_model_trained = true ↔
      (3 ≤ s.store.length ∧
       (fit (priceFeatures s.store) (priceTargets s.store)).isOk = true ∧
       (fit (profitFeatures s.store) (profitTargets s.store)).isOk = true)) := by
  rw [train_models_cases]
  by_cases h3 : s.store.length < 3
  · have : ¬ 3 ≤ s.store.length := Nat.not_le_of_lt h3
    simp [h3, this]
  · have h3' : 3 ≤ s.store.length := Nat.le_of_not_lt h3
    simp only [if_neg h3]
    cases hf1 : fit (priceFeatures s.store) (priceTargets s.store) with
    | error e => simp [h3', Except.isOk, Except.toBool]
    | ok pr =>
        cases hf2 : fit (profitFeatures s.store) (profitTargets s.store) with
        | error e => simp [h3', Except.isOk, Except.toBool]
        | ok pf => simp [h3', Except.isOk, Except.toBool]

/-- Python round(x, 2) always yields a value with two decimal places. -/
theorem round2_decimals (q : ℚ) : ∃ n : ℤ, round2 q = (n : ℚ) / 100 :=
  ⟨⌊q * 100 + 1 / 2⌋, rfl⟩

/-- C6: in a fixed trained state over a non-empty store,
predict_future_prices 3 returns exactly three entries dated 30, 60 and
90 days after the current instant, in increasing order, all carrying the
same predicted price — the price computed from the constant mean feature
vector of the last up-to-5 records in insertion order. -/
theorem C6 (s : PredictorState) (now : Nat)
    (h1 : s.price_model_trained = true) (h2 : s.store ≠ []) :
    predict_future_prices s now 3 =
      (some [{ date := now + 30, predicted_price := flatPrice s },
             { date := now + 60, predicted_price := flatPrice s },
             { date := now + 90, predicted_price := flatPrice s }], none) ∧
    now + 30 < now + 60 ∧ now + 60 < now + 90 := by
  have hlen : ¬ s.store.length = 0 := by simpa using h2
  have hr3 : List.range 3 = [0, 1, 2] := rfl
  refine ⟨?_, by omega, by omega⟩
  unfold predict_future_prices
  rw [h1, if_neg (by simp), if_neg hlen, hr3]
  simp only [List.map, flatPrice]

/-- C6 witness: the trained scenario state, current instant day 100; all
three entries carry the price 241 and the dates climb 130, 160, 190. -/
theorem C6_witness :
    trainedEx.price_model_trained = true ∧ trainedEx.store ≠ [] ∧
    (predict_future_prices trainedEx 100 3 =
      (some [{ date := 100 + 30, predicted_price := flatPrice trainedEx },
             { date := 100 + 60, predicted_price := flatPrice trainedEx },
             { date := 100 + 90, predicted_price := flatPrice trainedEx }], none) ∧
     100 + 30 < 100 + 60 ∧ 100 + 60 < 100 + 90) ∧
    flatPrice trainedEx = 241 :=
  ⟨by decide, by decide, C6 trainedEx 100 (by decide) (by decide),
   by with_unfolding_all rfl⟩

/-- C7: every entry of a successful price forecast carries a
predicted_price that is non-negative and has exactly two decimal places,
whatever the store, model and periods — the loop clamps with max 0 and
rounds with round(x, 2). -/
theorem C7 (s : PredictorState) (now periods : Nat) (l : List PricePrediction)
    (e : PricePrediction) (hl : (predict_future_prices s now periods).1 = some l)
    (he : e ∈ l) :
    0 ≤ e.predicted_price ∧ ∃ n : ℤ, e.predicted_price = (n : ℚ) / 100 := by
  unfold predict_future_prices at hl
  by_cases h1 : s.price_model_trained = false
  · rw [if_pos h1] at hl; simp at hl
  · rw [if_neg h1] at hl
    by_cases h2 : s.store.length = 0
    · rw [if_pos h2] at hl; simp at hl
    · rw [if_neg h2] at hl
      simp only [Option.some.injEq] at hl
      rw [← hl] at he
      obtain ⟨k, hk, hek⟩ := List.mem_map.mp he
      rw [← hek]
      dsimp only
      exact ⟨round2_nonneg _ (le_max_left 0 _), round2_decimals _⟩

/-- C7 witness: a fitted line predicting -780 on the scenario store's
mean features is clamped, so the forecast entry carries price 0 —
non-negative and an integer number of cents. -/
theorem C7_witness :
    (predict_future_prices negEx 100 1).1 =
      some [{ date := 130, predicted_price := 0 }] ∧
    ({ date := 130, predicted_price := 0 } : PricePrediction) ∈
      [({ date := 130, predicted_price := 0 } : PricePrediction)] ∧
    (0 ≤ ({ date := 130, predicted_price := (0 : ℚ) } : PricePrediction).predicted_price ∧
     ∃ n : ℤ, ({ date := 130, predicted_price := (0 : ℚ) } : PricePrediction).predicted_price =
       (n : ℚ) / 100) :=
  ⟨by with_unfolding_all rfl, by decide,
   C7 negEx 100 1 [{ date := 130, predicted_price := 0 }]
     { date := 130, predicted_price := 0 } (by with_unfolding_all rfl) (by decide)⟩

/-- C8: add_user_data with a succeeding save appends exactly one record
to the previous store, as its last element, whose six fields equal the
arguments passed, with the generated timestamp; the returned value is
the store read back. -/
theorem C8 (fit : FitFun) (s : PredictorState) (u : Nat)
    (mp ha tc tr np : ℚ) (ts : Nat) (s2 : PredictorState) (ret : List Record)
    (h : add_user_data fit true s u mp ha tc tr np ts = .ok (s2, ret)) :
    ∃ r : Record,
      s2.store = s.store ++ [r] ∧ ret = s2.store ∧
      r.user_id = u ∧ r.market_price = mp ∧ r.harvest_amount = ha ∧
      r.total_cost = tc ∧ r.total_revenue = tr ∧ r.net_profit = np ∧
      r.timestamp = ts := by
  simp only [add_user_data, if_true, Except.ok.injEq, Prod.mk.injEq] at h
  obtain ⟨hs2, hret⟩ := h
  refine ⟨{ user_id := u, market_price := mp, harvest_amount := ha,
            total_cost := tc, total_revenue := tr, net_profit := np,
            timestamp := ts },
          ?_, ?_, rfl, rfl, rfl, rfl, rfl, rfl, rfl⟩
  · rw [← hs2, train_models_store]
  · rw [← hret, ← hs2, train_models_store]

/-- C8 witness: adding one observation of user 2 on top of the scenario
store appends exactly that record at the end. -/
theorem C8_witness :
    add_user_data okFit true trainedEx 2 8 40 400 500 100 7 =
      .ok (train_models okFit { trainedEx with store := trainedEx.store ++
            [{ user_id := 2, market_price := 8, harvest_amount := 40,
               total_cost := 400, total_revenue := 500, net_profit := 100,
               timestamp := 7 }] },
           trainedEx.store ++
            [{ user_id := 2, market_price := 8, harvest_amount := 40,
               total_cost := 400, total_revenue := 500, net_profit := 100,
               timestamp := 7 }]) ∧
    ∃ r : Record,
      (train_models okFit { trainedEx with store := trainedEx.store ++
            [{ user_id := 2, market_price := 8, harvest_amount := 40,
               total_cost := 400, total_revenue := 500, net_profit := 100,
               timestamp := 7 }] }).store = trainedEx.store ++ [r] ∧
      (trainedEx.store ++
            [{ user_id := 2, market_price := 8, harvest_amount := 40,
               total_cost := 400, total_revenue := 500, net_profit := 100,
               timestamp := 7 }]) =
        (train_models okFit { trainedEx with store := trainedEx.store ++
            [{ user_id := 2, market_price := 8, harvest_amount := 40,
               total_cost := 400, total_revenue := 500, net_profit := 100,
               timestamp := 7 }] }).store ∧
      r.user_id = 2 ∧ r.market_price = 8 ∧ r.harvest_amount = 40 ∧
      r.total_cost = 400 ∧ r.total_revenue = 500 ∧ r.net_profit = 100 ∧
      r.timestamp = 7 :=
  ⟨by rfl, C8 okFit trainedEx 2 8 40 400 500 100 7 _ _ (by rfl)⟩

/-- C9: the forecasts the analytics page computes take no user identity,
so every user receives the same forecast from a given state; and
inserting one record for user 1 on top of the two-record state changes
the price forecast user 2 subsequently receives (from the "not trained"
error to a concrete forecast). -/
theorem C9 :
    (∀ u v : Nat, ∀ s : PredictorState, ∀ now : Nat,
      user_price_forecast u s now = user_price_forecast v s now ∧
      user_profit_forecast u s now = user_profit_forecast v s now) ∧
    user_price_forecast 2 afterAdd 100 ≠ user_price_forecast 2 twoRecState 100 := by
  refine ⟨fun u v s now => ⟨rfl, rfl⟩, by decide⟩

/-- C10: in a trained state over a non-empty store the two prediction
calls return exactly `periods` entries with a null error, for every
periods, and periods 0 yields the empty list as a success, not an
error. -/
theorem C10 (s : PredictorState) (now periods : Nat)
    (h1 : s.price_model_trained = true) (h2 : s.profit_model_trained = true)
    (h3 : s.store ≠ []) :
    (∃ l, predict_future_prices s now periods = (some l, none) ∧
      l.length = periods) ∧
    (∃ l, predict_future_profits s now periods = (some l, none) ∧
      l.length = periods) ∧
    predict_future_prices s now 0 = (some [], none) ∧
    predict_future_profits s now 0 = (some [], none) := by
  have hlen : ¬ s.store.length = 0 := by simpa using h3
  refine ⟨?_, ?_, ?_, ?_⟩
  · unfold predict_future_prices
    rw [h1, if_neg (by simp), if_neg hlen]
    exact ⟨_, rfl, by simp⟩
  · unfold predict_future_profits
    rw [h2, if_neg (by simp), if_neg hlen]
    exact ⟨_, rfl, by simp⟩
  · unfold predict_future_prices
    rw [h1, if_neg (by simp), if_neg hlen]
    rfl
  · unfold predict_future_profits
    rw [h2, if_neg (by simp), if_neg hlen]
    rfl

/-- C10 witness: the trained scenario state at periods 4 yields
four-entry forecasts with null errors, and periods 0 the empty-list
success. -/
theorem C10_witness :
    trainedEx.price_model_trained = true ∧
    trainedEx.profit_model_trained = true ∧
    trainedEx.store ≠ [] ∧
    ((∃ l, predict_future_prices trainedEx 100 4 = (some l, none) ∧
       l.length = 4) ∧
     (∃ l, predict_future_profits trainedEx 100 4 = (some l, none) ∧
       l.length = 4) ∧
     predict_future_prices trainedEx 100 0 = (some [], none) ∧
     predict_future_profits trainedEx 100 0 = (some [], none)) :=
  ⟨by decide, by decide, by decide,
   C10 trainedEx 100 4 (by decide) (by decide) (by decide)⟩

end MarketML
